import Mathlib

/-!
Shallow embedding of the account and messaging core of the
farmer-supplier backend (src/main.py, src/schemas.py).

Accounts and messages live in two in-memory collections mirroring the
MongoDB collections "account" and "message".  Endpoint handlers become
pure functions from a database state (plus request fields) to either an
HTTP error (status code and detail string, exactly as raised by
`HTTPException`) or a result, together with the successor state for the
mutating operations.  The `db is None` guard of every handler is
transport plumbing and the database is modelled as always present.

The credential hasher `hash_password` (SHA-256 hex digest) is modelled
as an explicit function parameter `hp : String → String`: every theorem
holds for an arbitrary deterministic hasher, which is the only property
of SHA-256 the handlers rely on.
-/

namespace FarmerSupplier

/-- Account record, mirroring `schemas.Account` plus the store-assigned
`_id` (held as its string form) and the `updated_at` field that
`admin_toggle_active` sets. -/
structure Account where
  id : String
  name : String
  email : String
  password_hash : String
  role : String
  is_active : Bool
  updated_at : Option Nat := none
deriving DecidableEq

/-- Message record, mirroring `schemas.Message` plus the store-assigned
`_id`.  `sender_id` and `receiver_id` are kept exactly as the request
supplied them (main.py:142-147 stores `payload.sender_id`, not the
parsed ObjectId). -/
structure Message where
  id : String
  sender_id : String
  receiver_id : String
  content : String
  read : Bool
deriving DecidableEq

/-- Modelled from the spec: the document store behind `database.py`
(absent from src/) holds two independent collections and assigns fresh
identifiers on insert; `nextId` feeds the identifier generator. -/
structure DB where
  accounts : List Account
  messages : List Message
  nextId : Nat
deriving DecidableEq

/-- An error response as raised by `HTTPException(status_code, detail)`. -/
structure HTTPError where
  status : Nat
  detail : String
deriving DecidableEq

def conflictErr : HTTPError := ⟨400, "Email already registered"⟩
def invalidRoleErr : HTTPError := ⟨400, "Invalid role"⟩
def authErr : HTTPError := ⟨401, "Invalid credentials"⟩
def forbiddenErr : HTTPError := ⟨403, "Account is deactivated"⟩
def invalidUserIdErr : HTTPError := ⟨400, "Invalid user id"⟩
def notFoundErr : HTTPError := ⟨404, "User not found"⟩
def invalidAccountIdErr : HTTPError := ⟨400, "Invalid account id"⟩
def accountNotFoundErr : HTTPError := ⟨404, "Account not found"⟩

/-- A `pydantic.ValidationError` escaping a handler surfaces as a 500
response; raised when constructing `schemas.Message` with content
outside the 1..2000 length bounds. -/
def contentValidationErr : HTTPError := ⟨500, "Internal Server Error"⟩

/-- Hex digit character for a nibble (lowercase, as `ObjectId.__str__`). -/
def hexChar (n : Nat) : Char :=
  if n < 10 then Char.ofNat (48 + n) else Char.ofNat (87 + n)

/-- Modelled from the spec: identifier generation by the store on insert
(`database.py.create_document` returning the new `_id` as a string).
Rendered as the 24-character lowercase-hex form a BSON ObjectId takes. -/
def genId (n : Nat) : String :=
  String.mk ((List.range 24).map (fun i => hexChar (n / 16 ^ (23 - i) % 16)))

/-- Validity test of `bson.ObjectId(s)` for a string argument: accepts exactly a
24-character hexadecimal string and compares case-insensitively, i.e. it
normalizes to the lowercase form; anything else raises. -/
def isHexDigitChar (c : Char) : Bool :=
  (('0' ≤ c) && (c ≤ '9')) || (('a' ≤ c) && (c ≤ 'f')) || (('A' ≤ c) && (c ≤ 'F'))

/-- Lowercase an uppercase hex digit, the normalization `ObjectId`
applies to its hex-string argument. -/
def lowerHexChar (c : Char) : Char :=
  if ('A' ≤ c) && (c ≤ 'F') then Char.ofNat (c.toNat + 32) else c

def parseObjectId (s : String) : Option String :=
  if s.length == 24 && s.toList.all isHexDigitChar then
    some (String.mk (s.toList.map lowerHexChar))
  else none

/-- Query `db["account"].find_one({"email": email})`: first document whose
email field equals the query string. -/
def findByEmail (accounts : List Account) (email : String) : Option Account :=
  accounts.find? (fun a => a.email == email)

/-- Query `db["account"].find_one({"_id": obj})`: first document whose `_id`
equals the parsed ObjectId (stored ids are already lowercase hex). -/
def findById (accounts : List Account) (oid : String) : Option Account :=
  accounts.find? (fun a => a.id == oid)

/-- Handler `register` (main.py:81-100): reject a duplicate email (400
"Email already registered"), then a role outside
{farmer, supplier, admin} (400 "Invalid role"), otherwise insert the
account with the hashed password and `is_active=True` and return the
new identifier. -/
def register (hp : String → String) (db : DB)
    (name email password role : String) : Except HTTPError (DB × String) :=
  match findByEmail db.accounts email with
  | some _ => .error conflictErr
  | none =>
    if role == "farmer" || role == "supplier" || role == "admin" then
      let newId := genId db.nextId
      let account : Account :=
        { id := newId, name := name, email := email,
          password_hash := hp password, role := role,
          is_active := true, updated_at := none }
      let db2 : DB :=
        { db with accounts := db.accounts ++ [account],
                  nextId := db.nextId + 1 }
      .ok (db2, newId)
    else
      .error invalidRoleErr

/-- The sanitized account dictionary a successful login returns
(main.py:116-122): exactly the keys id, name, email, role, is_active. -/
structure AccountView where
  id : String
  name : String
  email : String
  role : String
  is_active : Bool
deriving DecidableEq

/-- Handler `login` (main.py:102-123): look the account up by email, compare
the stored hash with the hash of the supplied password (both misses
raise the identical 401 "Invalid credentials"), then reject an inactive
account with 403, and finally return the sanitized view. -/
def login (hp : String → String) (db : DB)
    (email password : String) : Except HTTPError AccountView :=
  match findByEmail db.accounts email with
  | none => .error authErr
  | some account =>
    if account.password_hash != hp password then .error authErr
    else if !account.is_active then .error forbiddenErr
    else .ok { id := account.id, name := account.name,
               email := account.email, role := account.role,
               is_active := account.is_active }

/-- Construction of `schemas.Message`: pydantic enforces
`min_length=1, max_length=2000` on `content` and raises otherwise. -/
def mkMessage (newId sender_id receiver_id content : String) : Option Message :=
  if 1 ≤ content.length && content.length ≤ 2000 then
    some { id := newId, sender_id := sender_id, receiver_id := receiver_id,
           content := content, read := false }
  else none

/-- Handler `send_message` (main.py:126-149): parse both ids (either failure →
400 "Invalid user id"), require both accounts to exist (404
"User not found"), then insert the message with `read=False` and return
its identifier.  A content-length violation escapes as a 500. -/
def send_message (db : DB)
    (sender_id receiver_id content : String) : Except HTTPError (DB × String) :=
  match parseObjectId receiver_id, parseObjectId sender_id with
  | some recvObj, some sendObj =>
    match findById db.accounts recvObj, findById db.accounts sendObj with
    | some _, some _ =>
      match mkMessage (genId db.nextId) sender_id receiver_id content with
      | some m =>
        let db2 : DB :=
          { db with messages := db.messages ++ [m],
                    nextId := db.nextId + 1 }
        .ok (db2, m.id)
      | none => .error contentValidationErr
    | _, _ => .error notFoundErr
  | _, _ => .error invalidUserIdErr

/-- Handler `list_messages` (main.py:151-164): with a truthy `peer_id` filter to
the two directed pairs between the users, otherwise (absent OR empty
string, since `if peer_id:` is Python truthiness) to every message the
user sends or receives. -/
def list_messages (db : DB) (user_id : String)
    (peer_id : Option String) : List Message :=
  match peer_id with
  | some p =>
    if p != "" then
      db.messages.filter (fun m =>
        (m.sender_id == user_id && m.receiver_id == p) ||
        (m.sender_id == p && m.receiver_id == user_id))
    else
      db.messages.filter (fun m =>
        m.sender_id == user_id || m.receiver_id == user_id)
  | none =>
    db.messages.filter (fun m =>
      m.sender_id == user_id || m.receiver_id == user_id)

/-- A dynamic document value, to state facts about which keys the
sanitized dictionaries carry. -/
inductive DocVal where
  | s (v : String)
  | b (v : Bool)
  | n (v : Nat)
deriving DecidableEq

/-- The raw account document as stored (with `_id` stringified), the
shape `get_documents("account")` hands back before sanitization. -/
def accountDoc (a : Account) : List (String × DocVal) :=
  [("_id", .s a.id), ("name", .s a.name), ("email", .s a.email),
   ("password_hash", .s a.password_hash), ("role", .s a.role),
   ("is_active", .b a.is_active)] ++
  (match a.updated_at with
   | some t => [("updated_at", .n t)]
   | none => [])

/-- Handler `admin_list_accounts` (main.py:167-175): every stored account with
the `password_hash` key popped. -/
def admin_list_accounts (db : DB) : List (List (String × DocVal)) :=
  db.accounts.map (fun a =>
    (accountDoc a).filter (fun kv => kv.1 != "password_hash"))

/-- The dictionary a successful login returns, keyed exactly as
main.py:116-122 writes it. -/
def accountViewDoc (v : AccountView) : List (String × DocVal) :=
  [("id", .s v.id), ("name", .s v.name), ("email", .s v.email),
   ("role", .s v.role), ("is_active", .b v.is_active)]

/-- Update `update_one({"_id": obj}, {"$set": ...})`: update the first document
with the given id, returning the new list and the matched count. -/
def updateFirst (accounts : List Account) (oid : String)
    (active : Bool) (now : Nat) : List Account × Nat :=
  match accounts with
  | [] => ([], 0)
  | a :: rest =>
    if a.id == oid then
      ({ a with is_active := active, updated_at := some now } :: rest, 1)
    else
      let r := updateFirst rest oid active now
      (a :: r.1, r.2)

/-- Handler `admin_toggle_active` (main.py:177-191): parse the id (400
"Invalid account id" on failure), `update_one` setting `is_active` and
`updated_at`, and 404 when nothing matched. -/
def admin_toggle_active (db : DB) (account_id : String)
    (active : Bool) (now : Nat) : Except HTTPError DB :=
  match parseObjectId account_id with
  | none => .error invalidAccountIdErr
  | some objId =>
    let r := updateFirst db.accounts objId active now
    if r.2 == 0 then .error accountNotFoundErr
    else .ok { db with accounts := r.1 }

/-- Email uniqueness of the account collection. -/
def emailsUnique (accounts : List Account) : Prop :=
  (accounts.map Account.email).Nodup

end FarmerSupplier

namespace FarmerSupplier

theorem findByEmail_append (l₁ l₂ : List Account) (email : String) :
    findByEmail (l₁ ++ l₂) email =
      (findByEmail l₁ email).or (findByEmail l₂ email) := by
  simp [findByEmail, List.find?_append]

/-- The account record `register` inserts on the success path. -/
def registeredAccount (hp : String → String) (db : DB)
    (name email password role : String) : Account :=
  { id := genId db.nextId, name := name, email := email,
    password_hash := hp password, role := role,
    is_active := true, updated_at := none }

/-- The database state after a successful `register`. -/
def registerDB (hp : String → String) (db : DB)
    (name email password role : String) : DB :=
  { db with
      accounts := db.accounts ++ [registeredAccount hp db name email password role],
      nextId := db.nextId + 1 }

theorem register_ok (hp : String → String) (db : DB)
    (name email password role : String)
    (hrole : role = "farmer" ∨ role = "supplier" ∨ role = "admin")
    (hfree : findByEmail db.accounts email = none) :
    register hp db name email password role =
      .ok (registerDB hp db name email password role, genId db.nextId) := by
  have hrole2 : (role == "farmer" || role == "supplier" || role == "admin") = true := by
    rcases hrole with h | h | h <;> simp [h]
  simp only [register, hfree, hrole2, if_true]
  rfl

/-- C1: for every valid tuple (name, email, password, role) with role in
{farmer, supplier, admin} and email not already registered, register
succeeds and returns an identifier, and a subsequent login with the same
email and password succeeds and returns an account view whose name,
email and role equal those given at registration and whose is_active is
true. -/
theorem register_then_login (hp : String → String) (db : DB)
    (name email password role : String)
    (hrole : role = "farmer" ∨ role = "supplier" ∨ role = "admin")
    (hfree : findByEmail db.accounts email = none) :
    ∃ db2 newId, register hp db name email password role = .ok (db2, newId) ∧
      login hp db2 email password =
        .ok { id := newId, name := name, email := email, role := role,
              is_active := true } := by
  refine ⟨_, _, register_ok hp db name email password role hrole hfree, ?_⟩
  have hfind : findByEmail (registerDB hp db name email password role).accounts email =
      some (registeredAccount hp db name email password role) := by
    show findByEmail (db.accounts ++ [registeredAccount hp db name email password role])
      email = _
    rw [findByEmail_append, hfree]
    simp [findByEmail, registeredAccount]
  simp [login, hfind, registeredAccount]

/-- C1 witness: a concrete registration followed by a login. -/
theorem register_then_login_witness :
    ∃ db2 newId,
      register (fun s => String.append s "#") ⟨[], [], 0⟩
        "Ann" "a@x.com" "pw" "farmer" = .ok (db2, newId) ∧
      login (fun s => String.append s "#") db2 "a@x.com" "pw" =
        .ok { id := newId, name := "Ann", email := "a@x.com",
              role := "farmer", is_active := true } :=
  register_then_login (fun s => String.append s "#") ⟨[], [], 0⟩
    "Ann" "a@x.com" "pw" "farmer" (Or.inl rfl) rfl

end FarmerSupplier

namespace FarmerSupplier

theorem register_ok_inv (hp : String → String) (db : DB)
    (name email password role : String) (db2 : DB) (i : String)
    (hreg : register hp db name email password role = .ok (db2, i)) :
    findByEmail db.accounts email = none ∧
      db2 = registerDB hp db name email password role := by
  cases hfind : findByEmail db.accounts email with
  | some b => simp [register, hfind] at hreg
  | none =>
    refine ⟨rfl, ?_⟩
    by_cases hrole : (role == "farmer" || role == "supplier" || role == "admin") = true
    · simp only [register, hfind, hrole, if_true] at hreg
      injection hreg with h
      injection h with h1 h2
      exact h1.symm
    · simp [register, hfind, hrole] at hreg

/-- The message record `send_message` inserts on the success path. -/
def sentMessage (db : DB) (sender_id receiver_id content : String) : Message :=
  { id := genId db.nextId, sender_id := sender_id, receiver_id := receiver_id,
    content := content, read := false }

/-- The database state after a successful `send_message`. -/
def sendDB (db : DB) (sender_id receiver_id content : String) : DB :=
  { db with
      messages := db.messages ++ [sentMessage db sender_id receiver_id content],
      nextId := db.nextId + 1 }

theorem send_message_ok_inv (db : DB) (s r c : String) (db2 : DB) (i : String)
    (h : send_message db s r c = .ok (db2, i)) :
    db2 = sendDB db s r c ∧ i = genId db.nextId ∧
      1 ≤ c.length ∧ c.length ≤ 2000 := by
  cases hr : parseObjectId r with
  | none => simp [send_message, hr] at h
  | some ro =>
    cases hs : parseObjectId s with
    | none => simp [send_message, hr, hs] at h
    | some so =>
      cases hfr : findById db.accounts ro with
      | none => simp [send_message, hr, hs, hfr] at h
      | some ar =>
        cases hfs : findById db.accounts so with
        | none => simp [send_message, hr, hs, hfr, hfs] at h
        | some asender =>
          by_cases hc : (1 ≤ c.length && c.length ≤ 2000) = true
          · simp only [send_message, hr, hs, hfr, hfs, mkMessage, hc, if_true] at h
            injection h with h
            injection h with h1 h2
            simp only [Bool.and_eq_true, decide_eq_true_eq] at hc
            exact ⟨h1.symm, h2.symm, hc.1, hc.2⟩
          · simp [send_message, mkMessage, hr, hs, hfr, hfs, hc] at h

end FarmerSupplier

namespace FarmerSupplier

theorem admin_toggle_active_ok_inv (db : DB) (aid : String) (act : Bool)
    (now : Nat) (db2 : DB)
    (h : admin_toggle_active db aid act now = .ok db2) :
    ∃ objId, parseObjectId aid = some objId ∧
      db2 = { db with accounts := (updateFirst db.accounts objId act now).1 } := by
  cases hp : parseObjectId aid with
  | none => simp [admin_toggle_active, hp] at h
  | some objId =>
    refine ⟨objId, rfl, ?_⟩
    by_cases hm : ((updateFirst db.accounts objId act now).2 == 0) = true
    · simp [admin_toggle_active, hp, hm] at h
    · simp only [admin_toggle_active, hp, hm, Bool.false_eq_true, if_false] at h
      injection h with h
      exact h.symm

theorem updateFirst_map_email (l : List Account) (oid : String)
    (act : Bool) (now : Nat) :
    (updateFirst l oid act now).1.map Account.email = l.map Account.email := by
  induction l with
  | nil => rfl
  | cons a rest ih =>
    by_cases h : (a.id == oid) = true
    · simp [updateFirst, h]
    · simp [updateFirst, h, ih]

/-- C2: email uniqueness is an invariant of the account store: in any
state where some account carries email E, a register call with email E
fails with the conflict error whatever the other fields are, and none of
the state-changing operations (register, admin_toggle_active,
send_message) turns a state with pairwise-distinct emails into one with
a duplicate. -/
theorem email_uniqueness_invariant (hp : String → String) (db : DB) :
    (∀ name email password role a, a ∈ db.accounts → a.email = email →
       register hp db name email password role = .error conflictErr) ∧
    (emailsUnique db.accounts →
      (∀ name email password role db2 i,
         register hp db name email password role = .ok (db2, i) →
           emailsUnique db2.accounts) ∧
      (∀ aid act now db2,
         admin_toggle_active db aid act now = .ok db2 →
           emailsUnique db2.accounts) ∧
      (∀ s r c db2 i,
         send_message db s r c = .ok (db2, i) → emailsUnique db2.accounts)) := by
  constructor
  · intro name email password role a ha hae
    have hsome : (db.accounts.find? (fun x => x.email == email)).isSome = true := by
      rw [List.find?_isSome]
      exact ⟨a, ha, by simp [hae]⟩
    rcases Option.isSome_iff_exists.mp hsome with ⟨b, hb⟩
    have hb2 : findByEmail db.accounts email = some b := hb
    simp [register, hb2]
  · intro hu
    refine ⟨?_, ?_, ?_⟩
    · intro name email password role db2 i hreg
      obtain ⟨hfind, hdb2⟩ :=
        register_ok_inv hp db name email password role db2 i hreg
      subst hdb2
      have hnotin : email ∉ db.accounts.map Account.email := by
        intro hmem
        rcases List.mem_map.mp hmem with ⟨x, hx, hxe⟩
        have hx2 := List.find?_eq_none.mp hfind x hx
        simp [hxe] at hx2
      simp only [emailsUnique, registerDB, registeredAccount, List.map_append,
        List.map_cons, List.map_nil] at *
      rw [List.nodup_append]
      refine ⟨hu, List.nodup_singleton _, ?_⟩
      intro x hx hx2
      simp only [List.mem_singleton] at hx2
      subst hx2
      exact hnotin hx
    · intro aid act now db2 htog
      obtain ⟨objId, hparse, hdb2⟩ :=
        admin_toggle_active_ok_inv db aid act now db2 htog
      subst hdb2
      simpa only [emailsUnique, updateFirst_map_email] using hu
    · intro s r c db2 i hsend
      obtain ⟨hdb2, -, -, -⟩ := send_message_ok_inv db s r c db2 i hsend
      subst hdb2
      exact hu

/-- C2 witness: a concrete second registration with an existing email
fails with the conflict error. -/
theorem email_uniqueness_invariant_witness :
    register (fun s => String.append s "#")
      ⟨[{ id := genId 0, name := "Ann", email := "a@x.com",
          password_hash := "pw#", role := "farmer",
          is_active := true, updated_at := none }], [], 1⟩
      "Bob" "a@x.com" "pw2" "gardener" = .error conflictErr :=
  (email_uniqueness_invariant (fun s => String.append s "#")
      ⟨[{ id := genId 0, name := "Ann", email := "a@x.com",
          password_hash := "pw#", role := "farmer",
          is_active := true, updated_at := none }], [], 1⟩).1
    "Bob" "a@x.com" "pw2" "gardener" _ (List.mem_singleton.mpr rfl) rfl

end FarmerSupplier

namespace FarmerSupplier

/-- C3: for every state and every login attempt, login with an
unregistered email and login with a registered email but a password
whose hash differs from the stored hash both fail with the very same
401 "Invalid credentials" error, so the two failure causes are
indistinguishable to the caller. -/
theorem login_failure_indistinguishable (hp : String → String) (db : DB)
    (email password : String) :
    (findByEmail db.accounts email = none →
       login hp db email password = .error authErr) ∧
    (∀ a, findByEmail db.accounts email = some a →
       a.password_hash ≠ hp password →
       login hp db email password = .error authErr) := by
  constructor
  · intro h
    simp [login, h]
  · intro a ha hne
    have h2 : (a.password_hash != hp password) = true := by simp [hne]
    simp [login, ha, h2]

/-- C3 witness: the two concrete failure modes produce the identical
error. -/
theorem login_failure_indistinguishable_witness :
    login (fun s => String.append s "#") ⟨[], [], 0⟩ "a@x.com" "pw" =
      .error authErr ∧
    login (fun s => String.append s "#")
      ⟨[{ id := genId 0, name := "Ann", email := "a@x.com",
          password_hash := "pw#", role := "farmer",
          is_active := true, updated_at := none }], [], 1⟩
      "a@x.com" "wrong" = .error authErr :=
  ⟨(login_failure_indistinguishable (fun s => String.append s "#")
      ⟨[], [], 0⟩ "a@x.com" "pw").1 rfl,
   (login_failure_indistinguishable (fun s => String.append s "#")
      ⟨[{ id := genId 0, name := "Ann", email := "a@x.com",
          password_hash := "pw#", role := "farmer",
          is_active := true, updated_at := none }], [], 1⟩
      "a@x.com" "wrong").2 _ rfl (by decide)⟩

/-- C10: login checks the password hash before the activation flag: a
deactivated account presented with a wrong password is refused with the
401 credentials error, and the 403 forbidden error occurs only when the
supplied password hashes to the stored hash. -/
theorem auth_checked_before_active (hp : String → String) (db : DB)
    (email password : String) :
    (∀ a, findByEmail db.accounts email = some a → a.is_active = false →
       a.password_hash ≠ hp password →
       login hp db email password = .error authErr) ∧
    (login hp db email password = .error forbiddenErr →
       ∃ a, findByEmail db.accounts email = some a ∧
         a.password_hash = hp password ∧ a.is_active = false) := by
  constructor
  · intro a ha hina hne
    have h2 : (a.password_hash != hp password) = true := by simp [hne]
    simp [login, ha, h2]
  · intro h
    cases hfind : findByEmail db.accounts email with
    | none =>
      rw [login] at h
      simp only [hfind] at h
      exact absurd (congrArg (fun e => match e with
        | Except.error err => err.status
        | Except.ok _ => 0) h) (by decide)
    | some a =>
      by_cases hpw : (a.password_hash != hp password) = true
      · rw [login] at h
        simp only [hfind, hpw, if_true] at h
        exact absurd (congrArg (fun e => match e with
          | Except.error err => err.status
          | Except.ok _ => 0) h) (by decide)
      · by_cases hact : a.is_active = true
        · rw [login] at h
          simp only [hfind, hpw, hact] at h
          simp at h
        · refine ⟨a, rfl, ?_, ?_⟩
          · simpa using hpw
          · simpa using hact

/-- C10 witness: a deactivated account with a wrong password is refused
with the credentials error, not the forbidden error. -/
theorem auth_checked_before_active_witness :
    login (fun s => String.append s "#")
      ⟨[{ id := genId 0, name := "Ann", email := "a@x.com",
          password_hash := "pw#", role := "farmer",
          is_active := false, updated_at := none }], [], 1⟩
      "a@x.com" "wrong" = .error authErr :=
  (auth_checked_before_active (fun s => String.append s "#")
      ⟨[{ id := genId 0, name := "Ann", email := "a@x.com",
          password_hash := "pw#", role := "farmer",
          is_active := false, updated_at := none }], [], 1⟩
      "a@x.com" "wrong").1 _ rfl rfl (by decide)

/-- C6 counterexample: register checks the duplicate email before the
role, so with an already-registered email a "gardener" registration
fails with the conflict error, which is not the validation error. -/
theorem register_gardener_counterexample :
    register (fun s => String.append s "#")
      ⟨[{ id := genId 1, name := "Carl", email := "c@x.com",
          password_hash := "pw#", role := "supplier",
          is_active := true, updated_at := none }], [], 2⟩
      "Dora" "c@x.com" "pw3" "gardener" = .error conflictErr ∧
    conflictErr ≠ invalidRoleErr := by
  constructor
  · rfl
  · decide

/-- C6 (amended): register with role "gardener" fails with the
validation error whenever the supplied email is not already registered
(with an already-registered email the conflict check fires first). -/
theorem register_gardener_validation (hp : String → String) (db : DB)
    (name email password : String)
    (hfree : findByEmail db.accounts email = none) :
    register hp db name email password "gardener" = .error invalidRoleErr := by
  simp [register, hfree]

/-- C6 witness: a concrete "gardener" registration against a fresh
email fails with the validation error. -/
theorem register_gardener_validation_witness :
    register (fun s => String.append s "#") ⟨[], [], 0⟩
      "Eve" "e@x.com" "pw" "gardener" = .error invalidRoleErr :=
  register_gardener_validation (fun s => String.append s "#") ⟨[], [], 0⟩
    "Eve" "e@x.com" "pw" rfl

end FarmerSupplier

namespace FarmerSupplier

/-- Concrete fixture: an active farmer account. -/
def annAccount : Account :=
  { id := genId 0, name := "Ann", email := "a@x.com",
    password_hash := "pw#", role := "farmer",
    is_active := true, updated_at := none }

/-- Concrete fixture: an active supplier account. -/
def bobAccount : Account :=
  { id := genId 1, name := "Bob", email := "b@x.com",
    password_hash := "pw#", role := "supplier",
    is_active := true, updated_at := none }

/-- Concrete fixture: a database holding the two accounts. -/
def twoAccountDB : DB := ⟨[annAccount, bobAccount], [], 2⟩

/-- C5: no operation returns a password_hash: every record returned by
admin_list_accounts lacks the password_hash key, and a successful login
returns a dictionary with exactly the keys id, name, email, role,
is_active. -/
theorem no_password_hash_exposed (hp : String → String) (db : DB)
    (email password : String) :
    (∀ doc ∈ admin_list_accounts db, ∀ kv ∈ doc, kv.1 ≠ "password_hash") ∧
    (∀ v, login hp db email password = .ok v →
       (accountViewDoc v).map Prod.fst =
         ["id", "name", "email", "role", "is_active"]) := by
  constructor
  · intro doc hdoc kv hkv
    rcases List.mem_map.mp hdoc with ⟨a, ha, hda⟩
    subst hda
    have h2 := List.of_mem_filter hkv
    simpa using h2
  · intro v hv
    rfl

/-- Concrete fixture: the sanitized view of the first fixture account. -/
def annView : AccountView :=
  { id := genId 0, name := "Ann", email := "a@x.com",
    role := "farmer", is_active := true }

/-- Concrete fixture: the sanitized listing record of the first fixture
account. -/
def annSanitizedDoc : List (String × DocVal) :=
  [("_id", DocVal.s annAccount.id), ("name", DocVal.s "Ann"),
   ("email", DocVal.s "a@x.com"), ("role", DocVal.s "farmer"),
   ("is_active", DocVal.b true)]

/-- C5 witness: the sanitized listing of a concrete database keeps the
id key (so the theorem applies to a real record) and a concrete
successful login carries exactly the sanitized keys. -/
theorem no_password_hash_exposed_witness :
    ("_id", DocVal.s annAccount.id).1 ≠ "password_hash" ∧
    (accountViewDoc annView).map Prod.fst =
      ["id", "name", "email", "role", "is_active"] :=
  ⟨(no_password_hash_exposed (fun s => String.append s "#") twoAccountDB
      "a@x.com" "pw").1 annSanitizedDoc (by decide)
      ("_id", DocVal.s annAccount.id) (by decide),
   (no_password_hash_exposed (fun s => String.append s "#") twoAccountDB
      "a@x.com" "pw").2 annView rfl⟩

/-- C7: send with a malformed sender or receiver identifier fails with
the invalid-id error, and send with well-formed identifiers of which
either has no matching account fails with the not-found error; an error
result carries no successor state, so no message is created. -/
theorem send_invalid_and_missing (db : DB) (s r c : String) :
    ((parseObjectId s = none ∨ parseObjectId r = none) →
       send_message db s r c = .error invalidUserIdErr) ∧
    (∀ so ro, parseObjectId s = some so → parseObjectId r = some ro →
       (findById db.accounts so = none ∨ findById db.accounts ro = none) →
       send_message db s r c = .error notFoundErr) := by
  constructor
  · intro h
    rcases h with h | h
    · cases hr : parseObjectId r with
      | none => simp [send_message, hr]
      | some ro => simp [send_message, hr, h]
    · simp [send_message, h]
  · intro so ro hs hr h
    rcases h with h | h
    · cases hfr : findById db.accounts ro with
      | none => simp [send_message, hs, hr, hfr]
      | some ar => simp [send_message, hs, hr, hfr, h]
    · simp [send_message, hs, hr, h]

/-- C7 witness: a malformed id and a pair of fresh well-formed ids
against an empty store produce the two errors. -/
theorem send_invalid_and_missing_witness :
    send_message ⟨[], [], 0⟩ "not-an-objectid" (genId 1) "hello" =
      .error invalidUserIdErr ∧
    send_message ⟨[], [], 0⟩ (genId 0) (genId 1) "hello" =
      .error notFoundErr :=
  ⟨(send_invalid_and_missing ⟨[], [], 0⟩ "not-an-objectid" (genId 1)
      "hello").1 (Or.inl (by decide)),
   (send_invalid_and_missing ⟨[], [], 0⟩ (genId 0) (genId 1) "hello").2
     (genId 0) (genId 1) rfl rfl (Or.inl rfl)⟩

/-- C9: every message send creates has content of length 1..2000, and a
send whose content is empty or longer than 2000 characters creates no
message. -/
theorem message_content_bounds (db : DB) (s r c : String) :
    (∀ db2 i, send_message db s r c = .ok (db2, i) →
       ∃ m, db2.messages = db.messages ++ [m] ∧ m.content = c ∧
         1 ≤ m.content.length ∧ m.content.length ≤ 2000) ∧
    (c.length = 0 ∨ 2000 < c.length →
       ∀ db2 i, send_message db s r c ≠ .ok (db2, i)) := by
  constructor
  · intro db2 i h
    obtain ⟨hdb2, hi, h1, h2⟩ := send_message_ok_inv db s r c db2 i h
    subst hdb2
    exact ⟨sentMessage db s r c, rfl, rfl, h1, h2⟩
  · intro hbad db2 i h
    obtain ⟨-, -, h1, h2⟩ := send_message_ok_inv db s r c db2 i h
    rcases hbad with hb | hb <;> omega

/-- C9 witness: a concrete send between the two fixture accounts
creates exactly one message whose content is in bounds. -/
theorem message_content_bounds_witness :
    ∃ m, (sendDB twoAccountDB (genId 0) (genId 1) "hello").messages =
        twoAccountDB.messages ++ [m] ∧ m.content = "hello" ∧
      1 ≤ m.content.length ∧ m.content.length ≤ 2000 :=
  (message_content_bounds twoAccountDB (genId 0) (genId 1) "hello").1
    (sendDB twoAccountDB (genId 0) (genId 1) "hello") (genId 2) rfl

end FarmerSupplier

namespace FarmerSupplier

theorem updateFirst_append_first (pre post : List Account) (a : Account)
    (oid : String) (act : Bool) (now : Nat)
    (hpre : ∀ b ∈ pre, b.id ≠ oid) (ha : a.id = oid) :
    updateFirst (pre ++ a :: post) oid act now =
      (pre ++ { a with is_active := act, updated_at := some now } :: post, 1) := by
  induction pre with
  | nil =>
    simp [updateFirst, ha]
  | cons b rest ih =>
    have hb : (b.id == oid) = false := by
      simp [hpre b (List.mem_cons_self b rest)]
    have ih2 := ih (fun x hx => hpre x (List.mem_cons_of_mem b hx))
    simp [updateFirst, hb, ih2]

theorem findByEmail_append_cons (pre post : List Account) (x : Account)
    (e : String) (hpre : ∀ b ∈ pre, b.email ≠ e) (hx : x.email = e) :
    findByEmail (pre ++ x :: post) e = some x := by
  rw [findByEmail_append]
  have h1 : findByEmail pre e = none := by
    simp only [findByEmail, List.find?_eq_none]
    intro b hb
    simp [hpre b hb]
  have hpx : (x.email == e) = true := by simp [hx]
  rw [h1, Option.none_or, findByEmail]
  exact List.find?_cons_of_pos _ hpx

theorem login_found (hp : String → String) (db : DB)
    (x : Account) (password : String)
    (hfind : findByEmail db.accounts x.email = some x)
    (hpw : x.password_hash = hp password) :
    login hp db x.email password =
      (if x.is_active then
        .ok { id := x.id, name := x.name, email := x.email,
              role := x.role, is_active := x.is_active }
      else .error forbiddenErr) := by
  unfold login
  rw [hfind]
  have hb : (x.password_hash != hp password) = false := by simp [hpw]
  cases hact : x.is_active <;> simp [hb, hact]

/-- C4: for a registered account reachable both by its email (for login)
and by its identifier (for the toggle), with correct credentials:
deactivating it makes login fail with the 403 forbidden error, and
re-activating it makes the same login succeed again. -/
theorem toggle_active_login (hp : String → String) (db : DB)
    (pre post : List Account) (a : Account) (password : String)
    (t1 t2 : Nat)
    (hacc : db.accounts = pre ++ a :: post)
    (hpre : ∀ b ∈ pre, b.email ≠ a.email ∧ b.id ≠ a.id)
    (hpw : a.password_hash = hp password)
    (hid : parseObjectId a.id = some a.id) :
    ∃ db1, admin_toggle_active db a.id false t1 = .ok db1 ∧
      login hp db1 a.email password = .error forbiddenErr ∧
      ∃ db2, admin_toggle_active db1 a.id true t2 = .ok db2 ∧
        ∃ v, login hp db2 a.email password = .ok v ∧
          v.id = a.id ∧ v.is_active = true := by
  have hpreE : ∀ b ∈ pre, b.email ≠ a.email := fun b hb => (hpre b hb).1
  have hpreI : ∀ b ∈ pre, b.id ≠ a.id := fun b hb => (hpre b hb).2
  have hup1 : updateFirst db.accounts a.id false t1 =
      (pre ++ { a with is_active := false, updated_at := some t1 } :: post, 1) := by
    rw [hacc]
    exact updateFirst_append_first pre post a a.id false t1 hpreI rfl
  have htog1 : admin_toggle_active db a.id false t1 =
      .ok { db with accounts := pre ++ { a with is_active := false, updated_at := some t1 } :: post } := by
    simp [admin_toggle_active, hid, hup1]
  refine ⟨_, htog1, ?_, ?_⟩
  · have hfind1 : findByEmail (pre ++ { a with is_active := false, updated_at := some t1 } :: post) a.email =
        some { a with is_active := false, updated_at := some t1 } :=
      findByEmail_append_cons pre post _ a.email hpreE rfl
    have hl1 := login_found hp
      { db with accounts := pre ++ { a with is_active := false, updated_at := some t1 } :: post }
      { a with is_active := false, updated_at := some t1 } password hfind1 hpw
    simpa using hl1
  · have hup2 : updateFirst (pre ++ { a with is_active := false, updated_at := some t1 } :: post) a.id true t2 =
        (pre ++ { a with is_active := true, updated_at := some t2 } :: post, 1) := by
      exact updateFirst_append_first pre post _ a.id true t2 hpreI rfl
    have htog2 : admin_toggle_active { db with accounts := pre ++ { a with is_active := false, updated_at := some t1 } :: post } a.id true t2 =
        .ok { db with accounts := pre ++ { a with is_active := true, updated_at := some t2 } :: post } := by
      simp [admin_toggle_active, hid, hup2]
    refine ⟨_, htog2, ?_⟩
    have hfind2 : findByEmail (pre ++ { a with is_active := true, updated_at := some t2 } :: post) a.email =
        some { a with is_active := true, updated_at := some t2 } :=
      findByEmail_append_cons pre post _ a.email hpreE rfl
    refine ⟨{ id := a.id, name := a.name, email := a.email, role := a.role, is_active := true }, ?_, rfl, rfl⟩
    have hl2 := login_found hp
      { db with accounts := pre ++ { a with is_active := true, updated_at := some t2 } :: post }
      { a with is_active := true, updated_at := some t2 } password hfind2 hpw
    simpa using hl2

/-- C4 witness: a concrete deactivate, failed login, re-activate,
successful login sequence on the fixture account. -/
theorem toggle_active_login_witness :
    ∃ db1, admin_toggle_active twoAccountDB annAccount.id false 7 = .ok db1 ∧
      login (fun s => String.append s "#") db1 "a@x.com" "pw" =
        .error forbiddenErr ∧
      ∃ db2, admin_toggle_active db1 annAccount.id true 8 = .ok db2 ∧
        ∃ v, login (fun s => String.append s "#") db2 "a@x.com" "pw" = .ok v ∧
          v.id = annAccount.id ∧ v.is_active = true :=
  toggle_active_login (fun s => String.append s "#") twoAccountDB
    [] [bobAccount] annAccount "pw" 7 8 rfl
    (fun b hb => absurd hb (List.not_mem_nil b)) rfl (by decide)

/-- C8 counterexample: with the empty string as one of the two
identifiers, the Python truthiness test `if peer_id:` in the handler treats
the peer as absent in one argument order only, so the two listings are
not the same set. -/
theorem list_symmetry_counterexample :
    (⟨"m1", "aa", "bb", "hi", false⟩ : Message) ∈
      list_messages ⟨[], [⟨"m1", "aa", "bb", "hi", false⟩], 0⟩ "bb" (some "") ∧
    (⟨"m1", "aa", "bb", "hi", false⟩ : Message) ∉
      list_messages ⟨[], [⟨"m1", "aa", "bb", "hi", false⟩], 0⟩ "" (some "bb") := by
  decide

/-- C8 (amended): for every state and every pair of non-empty
identifiers x and y, list(x, y) and list(y, x) return the same messages,
and after a successful send the listings of both the sender and the
receiver include the newly created message. -/
theorem list_symmetry_and_send (db : DB) (x y s r c : String)
    (hx : x ≠ "") (hy : y ≠ "") :
    list_messages db x (some y) = list_messages db y (some x) ∧
    (∀ db2 i, send_message db s r c = .ok (db2, i) →
       ∃ m, db2.messages = db.messages ++ [m] ∧
         m ∈ list_messages db2 s none ∧ m ∈ list_messages db2 r none) := by
  constructor
  · have hx2 : (x != "") = true := by simp [hx]
    have hy2 : (y != "") = true := by simp [hy]
    simp only [list_messages, hx2, hy2, if_true]
    apply List.filter_congr
    intro m hm
    exact Bool.or_comm _ _
  · intro db2 i h
    obtain ⟨hdb2, -, -, -⟩ := send_message_ok_inv db s r c db2 i h
    subst hdb2
    refine ⟨sentMessage db s r c, rfl, ?_, ?_⟩
    · apply List.mem_filter.mpr
      exact ⟨List.mem_append_right _ (List.mem_singleton.mpr rfl), by simp [sentMessage]⟩
    · apply List.mem_filter.mpr
      exact ⟨List.mem_append_right _ (List.mem_singleton.mpr rfl), by simp [sentMessage]⟩

/-- C8 witness: concrete symmetric listings and a concrete send whose
message shows up in the listings of both participants. -/
theorem list_symmetry_and_send_witness :
    list_messages twoAccountDB "aa" (some "bb") =
      list_messages twoAccountDB "bb" (some "aa") ∧
    ∃ m, (sendDB twoAccountDB (genId 0) (genId 1) "hello").messages =
        twoAccountDB.messages ++ [m] ∧
      m ∈ list_messages (sendDB twoAccountDB (genId 0) (genId 1) "hello")
            (genId 0) none ∧
      m ∈ list_messages (sendDB twoAccountDB (genId 0) (genId 1) "hello")
            (genId 1) none :=
  ⟨(list_symmetry_and_send twoAccountDB "aa" "bb" (genId 0) (genId 1)
      "hello" (by decide) (by decide)).1,
   (list_symmetry_and_send twoAccountDB "aa" "bb" (genId 0) (genId 1)
      "hello" (by decide) (by decide)).2
     (sendDB twoAccountDB (genId 0) (genId 1) "hello") (genId 2) rfl⟩

end FarmerSupplier
